import Mathlib

/-!
Verification of the ForgeryNet_FHE client sync logic and contract helper.

The front-end (src/frontend/web/src/App.tsx) keeps a local cache of
artwork records synchronized with a remote key-value ledger exposed by a
contract: `getData key` returns the stored bytes (empty when the key is
absent) and `setData key bytes` writes them.  The index of all record ids
lives under the fixed key "artwork_keys"; each record lives under
"artwork_" ++ id as a JSON object with fields
{data, timestamp, owner, artworkName, status}.

The embedding below models the stored bytes at a key by what they decode
to: a JSON array of ids, a JSON artwork object (each field optional,
since JavaScript property access on a parsed object yields undefined for
a missing field), or bytes on which JSON.parse throws.  Remote reads and
writes are sequential in the source (each is awaited before the next
statement), so the operations are modelled as state-passing functions;
`uploadArtwork` additionally returns the chronological list of
acknowledged writes it performed.  All functions are total: the source
wraps each operation in a try/catch that converts a thrown error into an
error status, never an uncaught exception.
-/

namespace ForgeryNet

/-- A parsed JSON artwork object as read in `loadArtworks` /
`markAsAuthentic` / `markAsForgery`: each field is what JavaScript
property access returns, `none` standing for undefined (field absent). -/
structure ArtworkJson where
  data : Option String
  timestamp : Option Int
  owner : Option String
  artworkName : Option String
  status : Option String
deriving DecidableEq

/-- What the bytes stored at a ledger key decode to: a JSON array of id
strings, a JSON artwork object, or bytes on which JSON.parse throws. -/
inductive Blob where
  | keysBlob (ks : List String)
  | artworkBlob (a : ArtworkJson)
  | garbage
deriving DecidableEq

/-- The remote ledger as seen through the contract: the `isAvailable()`
probe and the key-value content (`none` = key absent, i.e. `getData`
returns zero-length bytes). -/
structure RemoteStore where
  available : Bool
  blobs : String → Option Blob

/-- Effect of an acknowledged `setData key b` on the remote store. -/
def setBlob (s : RemoteStore) (key : String) (b : Blob) : RemoteStore :=
  { s with blobs := fun k => if k = key then some b else s.blobs k }

/-- The fixed index key "artwork_keys" (App.tsx line 92). -/
def indexKey : String := "artwork_keys"

/-- The key of a record: "artwork_" ++ id (App.tsx lines 107, 171). -/
def recordKey (id : String) : String := "artwork_" ++ id

/-- The `ArtworkRecord` interface of App.tsx (lines 9-16), as
constructed by `loadArtworks`: the fields are copied from the parsed
JSON (hence still optional), except `status` which is defaulted. -/
structure ArtworkRecord where
  id : String
  encryptedData : Option String
  timestamp : Option Int
  owner : Option String
  artworkName : Option String
  status : String
deriving DecidableEq

/-- `artworkData.status || "pending"` (App.tsx line 117): the JavaScript
`||` falls through to "pending" when the field is undefined or the empty
string (both falsy). -/
def defaultStatus : Option String → String
  | none => "pending"
  | some "" => "pending"
  | some st => st

/-- The record pushed onto the list for key `key` (App.tsx lines 111-118). -/
def mkRecord (key : String) (a : ArtworkJson) : ArtworkRecord :=
  { id := key
    encryptedData := a.data
    timestamp := a.timestamp
    owner := a.owner
    artworkName := a.artworkName
    status := defaultStatus a.status }

/-- JSON.parse of record bytes followed by field access.  An artwork
object yields its fields; a JSON array also parses successfully (every
named field then reads as undefined); garbage throws, modelled as
`none`. -/
def parseArtwork : Blob → Option ArtworkJson
  | Blob.artworkBlob a => some a
  | Blob.keysBlob _ => some ⟨none, none, none, none, none⟩
  | Blob.garbage => none

/-- Sort key used by the comparator `(a, b) => b.timestamp - a.timestamp`
(App.tsx line 128).  An absent timestamp makes the subtraction NaN in
JavaScript, leaving the engine order unspecified; the model fixes a
deterministic value for it.  No claim depends on the order of such
records. -/
def tsKey : Option Int → Int
  | some v => v
  | none => 0

/-- Stable descending insertion by timestamp. -/
def insertByTs (r : ArtworkRecord) : List ArtworkRecord → List ArtworkRecord
  | [] => [r]
  | x :: xs =>
    if tsKey x.timestamp < tsKey r.timestamp then r :: x :: xs
    else x :: insertByTs r xs

/-- `list.sort((a, b) => b.timestamp - a.timestamp)` (App.tsx line 128):
a deterministic stable sort, descending by timestamp. -/
def sortByTimestampDesc : List ArtworkRecord → List ArtworkRecord
  | [] => []
  | x :: xs => insertByTs x (sortByTimestampDesc xs)

/-- The per-id fetch loop of `loadArtworks` (App.tsx lines 105-126): for
each id, fetch its blob; zero-length bytes are skipped, a blob whose
parse throws is skipped (the try/catch is inside the loop body), a
parsed blob is pushed. -/
def collectRecords (s : RemoteStore) : List String → List ArtworkRecord
  | [] => []
  | key :: rest =>
    match s.blobs (recordKey key) with
    | none => collectRecords s rest
    | some b =>
      match parseArtwork b with
      | none => collectRecords s rest
      | some a => mkRecord key a :: collectRecords s rest

/-- `loadArtworks` (App.tsx lines 79-136) as a function from the remote
state and the current cache to the new cache.  When `isAvailable()`
reports false the function returns early (line 89) without calling
`setArtworks`, so the cache is the old one.  When the index bytes parse
to a JSON object rather than an array, the `for..of` over it throws and
the outer catch (line 130) leaves the cache untouched.  Otherwise the
index ids (empty on absent or unparsable index, lines 95-101) are
fetched one by one, sorted descending by timestamp, and replace the
cache wholesale via `setArtworks` (line 129). -/
def loadArtworksUpdate (s : RemoteStore) (old : List ArtworkRecord) :
    List ArtworkRecord :=
  if s.available then
    match s.blobs indexKey with
    | some (Blob.artworkBlob _) => old
    | some (Blob.keysBlob ks) => sortByTimestampDesc (collectRecords s ks)
    | some Blob.garbage => sortByTimestampDesc (collectRecords s [])
    | none => sortByTimestampDesc (collectRecords s [])
  else old

/-- Outcome of `markAsAuthentic` / `markAsForgery`: success status, or
the error status set by the catch block after `throw new Error("Artwork
not found")` (zero-length bytes) or a JSON.parse throw. -/
inductive TransitionOutcome where
  | success
  | notFound
  | parseFailed
deriving DecidableEq

/-- Common body of `markAsAuthentic` (App.tsx lines 230-290) and
`markAsForgery` (lines 292-352): fetch the record bytes, throw if
zero-length, parse, overlay `status` via the object spread
`{...artworkData, status: newStatus}`, and write the result back under
the same key.  The requesting identity is not consulted anywhere in
these functions; the remote write is modelled as acknowledged. -/
def markWith (newStatus : String) (s : RemoteStore) (artworkId : String) :
    TransitionOutcome × RemoteStore :=
  match s.blobs (recordKey artworkId) with
  | none => (TransitionOutcome.notFound, s)
  | some b =>
    match parseArtwork b with
    | none => (TransitionOutcome.parseFailed, s)
    | some a =>
      (TransitionOutcome.success,
        setBlob s (recordKey artworkId)
          (Blob.artworkBlob { a with status := some newStatus }))

/-- `markAsAuthentic` (App.tsx lines 230-290). -/
def markAsAuthentic : RemoteStore → String → TransitionOutcome × RemoteStore :=
  markWith "authentic"

/-- `markAsForgery` (App.tsx lines 292-352). -/
def markAsForgery : RemoteStore → String → TransitionOutcome × RemoteStore :=
  markWith "forgery"

/-- Character-wise ASCII lowercasing, modelling
`String.prototype.toLowerCase` on the ASCII identity strings (hex
addresses) the application compares. -/
def toLowerAscii (s : String) : String :=
  String.mk (s.data.map Char.toLower)

/-- `isOwner` (App.tsx lines 354-356):
`account.toLowerCase() === address.toLowerCase()`. -/
def isOwner (account : String) (address : String) : Bool :=
  toLowerAscii account == toLowerAscii address

/-- The render guard on the two transition buttons (App.tsx line 535):
`isOwner(artwork.owner) && artwork.status === "pending"`, with the
record's owner and status fields passed in. -/
def showTransitionActions (account owner status : String) : Bool :=
  isOwner account owner && status == "pending"

/-- A write policy of the remote ledger: for an attempted
`setData key b`, `none` means the write is acknowledged and `some m`
means the underlying transaction is rejected and the call throws an
error whose message is `m` (a user-declined transaction carries a
message containing "user rejected transaction"). -/
def SetPolicy : Type := String → Blob → Option String

/-- Whether `pat` occurs at the head of the first list. -/
def listBeginsWith : List Char → List Char → Bool
  | _, [] => true
  | [], _ :: _ => false
  | c :: cs, p :: ps => c == p && listBeginsWith cs ps

/-- Whether `pat` occurs as a contiguous sublist. -/
def hasSubList (pat : List Char) : List Char → Bool
  | [] => pat.isEmpty
  | c :: cs => listBeginsWith (c :: cs) pat || hasSubList pat cs

/-- Substring test, modelling JavaScript `String.prototype.includes`. -/
def containsSub (s pat : String) : Bool :=
  hasSubList pat.data s.data

/-- The error message shown by `uploadArtwork` (App.tsx lines 212-214):
"Transaction rejected by user" when the thrown message contains
"user rejected transaction", otherwise "Submission failed: " plus the
message (or "Unknown error" when the message is empty/absent). -/
def uploadErrorMessage (m : String) : String :=
  if containsSub m "user rejected transaction" then
    "Transaction rejected by user"
  else
    "Submission failed: " ++ (if m = "" then "Unknown error" else m)

/-- Message of the TypeError raised when `keys.push` is applied to a
parsed index that is a JSON object rather than an array (the exact text
is engine-specific; no claim depends on it). -/
def pushThrowMessage : String := "keys.push is not a function"

/-- Client-side inputs of one `uploadArtwork` run (App.tsx lines
153-168): the connected account, the freshly generated id, the simulated
FHE encryption of the form data (an uninterpreted string), the artwork
name, and the client timestamp. -/
structure NewArtworkInput where
  account : String
  artworkId : String
  encryptedData : String
  artworkName : String
  timestamp : Int
deriving DecidableEq

/-- The artwork object written by `uploadArtwork` (App.tsx lines
162-168): every field present, `status` set to "pending". -/
def newRecordJson (inp : NewArtworkInput) : ArtworkJson :=
  { data := some inp.encryptedData
    timestamp := some inp.timestamp
    owner := some inp.account
    artworkName := some inp.artworkName
    status := some "pending" }

/-- Status reported in the transaction notification of `uploadArtwork`. -/
inductive UploadStatus where
  | success
  | error (message : String)
deriving DecidableEq

/-- Result of one `uploadArtwork` run: the reported status, the remote
store afterwards, the local cache afterwards, and the chronological list
of acknowledged `setData` writes performed. -/
structure UploadResult where
  status : UploadStatus
  remote : RemoteStore
  cache : List ArtworkRecord
  writes : List (String × Blob)

/-- Parse of the index bytes re-fetched by `uploadArtwork` before
`keys.push(artworkId)` (App.tsx lines 176-187): absent or unparsable
bytes leave `keys = []` (the parse throw is caught at line 182); bytes
that parse to a JSON object make the later `keys.push` throw, escaping
to the outer catch, modelled as `none`. -/
def parseKeysForAppend : Option Blob → Option (List String)
  | none => some []
  | some (Blob.keysBlob ks) => some ks
  | some Blob.garbage => some []
  | some (Blob.artworkBlob _) => none

/-- `uploadArtwork` (App.tsx lines 138-228): write the new record blob
under its key; on acknowledgement, re-fetch the index, append the new id
and rewrite the index; on success set the success status and re-run
`loadArtworks`.  Any thrown error (a rejected write in particular) lands
in the catch block, which sets the error status and returns without
touching the cache. -/
def uploadArtwork (pol : SetPolicy) (inp : NewArtworkInput)
    (s : RemoteStore) (cache : List ArtworkRecord) : UploadResult :=
  let recJson := newRecordJson inp
  let rkey := recordKey inp.artworkId
  match pol rkey (Blob.artworkBlob recJson) with
  | some m =>
    { status := UploadStatus.error (uploadErrorMessage m)
      remote := s, cache := cache, writes := [] }
  | none =>
    let s1 := setBlob s rkey (Blob.artworkBlob recJson)
    match parseKeysForAppend (s1.blobs indexKey) with
    | none =>
      { status := UploadStatus.error (uploadErrorMessage pushThrowMessage)
        remote := s1, cache := cache
        writes := [(rkey, Blob.artworkBlob recJson)] }
    | some keys =>
      let newKeys := keys ++ [inp.artworkId]
      match pol indexKey (Blob.keysBlob newKeys) with
      | some m =>
        { status := UploadStatus.error (uploadErrorMessage m)
          remote := s1, cache := cache
          writes := [(rkey, Blob.artworkBlob recJson)] }
      | none =>
        let s2 := setBlob s1 indexKey (Blob.keysBlob newKeys)
        { status := UploadStatus.success
          remote := s2
          cache := loadArtworksUpdate s2 cache
          writes := [(rkey, Blob.artworkBlob recJson),
                     (indexKey, Blob.keysBlob newKeys)] }

/-- `computeConfidence` (src/contracts/ForgeryNetFHE.sol lines 195-202):
`if (value > 100) return 100; return value;` on a uint32.  No arithmetic
is performed, so Nat models the uint32 value directly. -/
def computeConfidence (aggregated : Nat) : Nat :=
  if aggregated > 100 then 100 else aggregated

/-- C9: For every uint32 input x, the contract's confidence derivation
computeConfidence(x) equals min(x, 100): it returns x unchanged when
x ≤ 100 and saturates at 100 when x > 100. -/
theorem computeConfidence_eq_min (x : Nat) (h : x < 2 ^ 32) :
    computeConfidence x = min x 100 := by
  unfold computeConfidence
  split <;> omega

/-- Witness for `computeConfidence_eq_min` at x = 150. -/
theorem computeConfidence_eq_min_witness :
    150 < 2 ^ 32 ∧ computeConfidence 150 = min 150 100 :=
  ⟨by decide, computeConfidence_eq_min 150 (by decide)⟩

/-- A remote store with no keys set, reporting available. -/
def emptyStore : RemoteStore :=
  { available := true, blobs := fun _ => none }

/-- A concrete upload input used to instantiate the general theorems. -/
def sampleInput : NewArtworkInput :=
  { account := "0xABC"
    artworkId := "1700000000000-abc1234"
    encryptedData := "FHE-eyJ9"
    artworkName := "Starry Night"
    timestamp := 1700000000 }

/-- A ledger that rejects every write with a user-rejection message. -/
def rejectPol : SetPolicy :=
  fun _ _ => some "user rejected transaction (code 4001)"

/-- A ledger that acknowledges every write. -/
def acceptPol : SetPolicy := fun _ _ => none

/-- C4: For every execution of createRecord (uploadArtwork) in which a
remote write fails — the record write or the index write, including user
rejection — the operation terminates with the failure surfaced as a
human-readable error status (a user-declined transaction reported
distinctly), and the local Record Store cache is not updated by that
call. -/
theorem uploadArtwork_write_failure (pol : SetPolicy) (inp : NewArtworkInput)
    (s : RemoteStore) (cache : List ArtworkRecord) :
    (∀ m, pol (recordKey inp.artworkId) (Blob.artworkBlob (newRecordJson inp)) = some m →
        (uploadArtwork pol inp s cache).status = UploadStatus.error (uploadErrorMessage m) ∧
        (uploadArtwork pol inp s cache).cache = cache) ∧
    (∀ ks m, pol (recordKey inp.artworkId) (Blob.artworkBlob (newRecordJson inp)) = none →
        parseKeysForAppend ((setBlob s (recordKey inp.artworkId)
            (Blob.artworkBlob (newRecordJson inp))).blobs indexKey) = some ks →
        pol indexKey (Blob.keysBlob (ks ++ [inp.artworkId])) = some m →
        (uploadArtwork pol inp s cache).status = UploadStatus.error (uploadErrorMessage m) ∧
        (uploadArtwork pol inp s cache).cache = cache) ∧
    uploadErrorMessage "user rejected transaction (code 4001)" = "Transaction rejected by user" := by
  refine ⟨?_, ?_, by decide⟩
  · intro m h
    simp [uploadArtwork, h]
  · intro ks m h1 h2 h3
    simp [uploadArtwork, h1, h2, h3]

/-- Witness for `uploadArtwork_write_failure`: a ledger that rejects the
record write with a user-rejection message leaves the cache untouched
and reports the mapped error message. -/
theorem uploadArtwork_write_failure_witness :
    (uploadArtwork rejectPol sampleInput emptyStore []).status
        = UploadStatus.error (uploadErrorMessage "user rejected transaction (code 4001)") ∧
    (uploadArtwork rejectPol sampleInput emptyStore []).cache = [] :=
  (uploadArtwork_write_failure rejectPol sampleInput emptyStore []).1
    "user rejected transaction (code 4001)" rfl

/-- C5: In every successful execution of createRecord (uploadArtwork),
the acknowledged remote writes are, in chronological order, first the
new record blob under its key and only then the index rewritten with the
new id appended; consequently the record write completes before the
index references it, and in the resulting remote store the new index
entry resolves to bytes that parse. -/
theorem uploadArtwork_record_write_precedes_index (pol : SetPolicy)
    (inp : NewArtworkInput) (s : RemoteStore) (cache : List ArtworkRecord)
    (h : (uploadArtwork pol inp s cache).status = UploadStatus.success) :
    (∃ ks,
      (uploadArtwork pol inp s cache).writes =
        [(recordKey inp.artworkId, Blob.artworkBlob (newRecordJson inp)),
         (indexKey, Blob.keysBlob (ks ++ [inp.artworkId]))] ∧
      (uploadArtwork pol inp s cache).remote.blobs indexKey
        = some (Blob.keysBlob (ks ++ [inp.artworkId]))) ∧
    (∃ b, (uploadArtwork pol inp s cache).remote.blobs (recordKey inp.artworkId) = some b ∧
        (parseArtwork b).isSome = true) := by
  unfold uploadArtwork at h ⊢
  cases h1 : pol (recordKey inp.artworkId) (Blob.artworkBlob (newRecordJson inp)) with
  | some m => simp [h1] at h
  | none =>
    simp only [h1] at h ⊢
    cases h2 : parseKeysForAppend ((setBlob s (recordKey inp.artworkId)
        (Blob.artworkBlob (newRecordJson inp))).blobs indexKey) with
    | none => simp [h2] at h
    | some ks =>
      simp only [h2] at h ⊢
      cases h3 : pol indexKey (Blob.keysBlob (ks ++ [inp.artworkId])) with
      | some m => simp [h3] at h
      | none =>
        simp only [h3]
        refine ⟨⟨ks, rfl, ?_⟩, ?_⟩
        · simp [setBlob]
        · by_cases hk : recordKey inp.artworkId = indexKey
          · exact ⟨Blob.keysBlob (ks ++ [inp.artworkId]), by simp [setBlob, hk], rfl⟩
          · exact ⟨Blob.artworkBlob (newRecordJson inp),
              by simp [setBlob, hk], rfl⟩

/-- Witness for `uploadArtwork_record_write_precedes_index`: an
all-acknowledging ledger over the empty store. -/
theorem uploadArtwork_record_write_precedes_index_witness :
    (∃ ks,
      (uploadArtwork acceptPol sampleInput emptyStore []).writes =
        [(recordKey sampleInput.artworkId, Blob.artworkBlob (newRecordJson sampleInput)),
         (indexKey, Blob.keysBlob (ks ++ [sampleInput.artworkId]))] ∧
      (uploadArtwork acceptPol sampleInput emptyStore []).remote.blobs indexKey
        = some (Blob.keysBlob (ks ++ [sampleInput.artworkId]))) ∧
    (∃ b, (uploadArtwork acceptPol sampleInput emptyStore []).remote.blobs
          (recordKey sampleInput.artworkId) = some b ∧
        (parseArtwork b).isSome = true) :=
  uploadArtwork_record_write_precedes_index acceptPol sampleInput emptyStore [] (by decide)

theorem mem_insertByTs (x r : ArtworkRecord) (l : List ArtworkRecord) :
    x ∈ insertByTs r l ↔ x = r ∨ x ∈ l := by
  induction l with
  | nil => simp [insertByTs]
  | cons y ys ih =>
    simp only [insertByTs]
    split
    · simp
    · simp only [List.mem_cons, ih]
      tauto

theorem mem_sortByTimestampDesc (x : ArtworkRecord) (l : List ArtworkRecord) :
    x ∈ sortByTimestampDesc l ↔ x ∈ l := by
  induction l with
  | nil => simp [sortByTimestampDesc]
  | cons y ys ih => simp [sortByTimestampDesc, mem_insertByTs, ih]

/-- The fetch loop collects exactly the parse successes, in index order:
a per-item failure (absent blob or parse throw) is dropped without
affecting the other items. -/
theorem collectRecords_eq_filterMap (s : RemoteStore) (ks : List String) :
    collectRecords s ks = ks.filterMap fun k =>
      ((s.blobs (recordKey k)).bind parseArtwork).map fun a => mkRecord k a := by
  induction ks with
  | nil => rfl
  | cons k rest ih =>
    simp only [collectRecords, List.filterMap_cons]
    cases hb : s.blobs (recordKey k) with
    | none => simpa [hb] using ih
    | some b =>
      cases hp : parseArtwork b with
      | none => simp [hb, hp, ih]
      | some a => simp [hb, hp, ih]

/-- Scenario A remote state: Index = ["a"], record "a" absent. -/
def scenarioStoreA : RemoteStore :=
  { available := true
    blobs := fun k => if k = indexKey then some (Blob.keysBlob ["a"]) else none }

/-- C6: refresh is best-effort per item: with a parseable index, the
Record Store becomes exactly the per-id parse successes (an absent blob
or an unparsable blob is skipped without aborting the rest), sorted by
timestamp; in particular, with Index = ["a"] and record "a" missing
remotely, refresh yields an empty Record Store without error. -/
theorem loadArtworks_best_effort :
    (∀ (s : RemoteStore) (old : List ArtworkRecord) (ks : List String),
        s.available = true → s.blobs indexKey = some (Blob.keysBlob ks) →
        loadArtworksUpdate s old = sortByTimestampDesc (ks.filterMap fun k =>
          ((s.blobs (recordKey k)).bind parseArtwork).map fun a => mkRecord k a)) ∧
    (∀ old, loadArtworksUpdate scenarioStoreA old = []) := by
  constructor
  · intro s old ks ha hi
    simp [loadArtworksUpdate, ha, hi, collectRecords_eq_filterMap]
  · intro old
    simp [loadArtworksUpdate, scenarioStoreA, collectRecords, indexKey,
      recordKey, sortByTimestampDesc]

/-- Witness for `loadArtworks_best_effort` on the Scenario A store. -/
theorem loadArtworks_best_effort_witness :
    loadArtworksUpdate scenarioStoreA [] =
      sortByTimestampDesc ((["a"] : List String).filterMap fun k =>
        ((scenarioStoreA.blobs (recordKey k)).bind parseArtwork).map fun a =>
          mkRecord k a) :=
  loadArtworks_best_effort.1 scenarioStoreA [] ["a"] rfl rfl

/-- C8: refresh is idempotent with respect to the local cache: for a
fixed remote store state, running it twice in a row with no intervening
writes leaves exactly the contents (values and order) of running it
once, since an available refresh replaces the cache with a function of
the remote state alone and an unavailable or aborted refresh leaves the
cache fixed. -/
theorem loadArtworks_idempotent (s : RemoteStore) (c : List ArtworkRecord) :
    loadArtworksUpdate s (loadArtworksUpdate s c) = loadArtworksUpdate s c := by
  by_cases ha : s.available
  · cases hb : s.blobs indexKey with
    | none => simp [loadArtworksUpdate, ha, hb]
    | some b => cases b <;> simp [loadArtworksUpdate, ha, hb]
  · simp [loadArtworksUpdate, ha]

/-- An unavailable remote store. -/
def unavailableStore : RemoteStore :=
  { available := false, blobs := fun _ => none }

/-- A concrete cached record used to instantiate the general theorems. -/
def sampleRecord : ArtworkRecord :=
  { id := "a1"
    encryptedData := some "FHE-x"
    timestamp := some 5
    owner := some "0xAAA"
    artworkName := some "Mona Lisa"
    status := "pending" }

/-- C3 counterexample: when `isAvailable()` reports false, refresh
returns early without calling `setArtworks`, so with a nonempty prior
cache the resulting local Record Store is the old nonempty list, not the
empty list the claim states. -/
theorem loadArtworks_unavailable_not_empty_list :
    loadArtworksUpdate unavailableStore [sampleRecord] ≠ [] := by decide

/-- C3 amended: whenever `isAvailable()` reports false, refresh
completes without raising an error and leaves the local Record Store
unchanged (so it is empty only when it already was, as on the initial
load). -/
theorem loadArtworks_unavailable_keeps_cache (s : RemoteStore)
    (old : List ArtworkRecord) (h : s.available = false) :
    loadArtworksUpdate s old = old := by
  simp [loadArtworksUpdate, h]

/-- Witness for `loadArtworks_unavailable_keeps_cache`. -/
theorem loadArtworks_unavailable_keeps_cache_witness :
    loadArtworksUpdate unavailableStore [sampleRecord] = [sampleRecord] :=
  loadArtworks_unavailable_keeps_cache unavailableStore [sampleRecord] rfl

/-- A parsed artwork object without a status field. -/
def noStatusJson : ArtworkJson :=
  { data := some "FHE-y"
    timestamp := some 7
    owner := some "0xAAA"
    artworkName := some "The Scream"
    status := none }

/-- A store whose index lists "b1" and whose record "b1" parses but has
no status field. -/
def storeNoStatus : RemoteStore :=
  { available := true
    blobs := fun k =>
      if k = indexKey then some (Blob.keysBlob ["b1"])
      else if k = recordKey "b1" then some (Blob.artworkBlob noStatusJson)
      else none }

/-- C10: a fetched record blob that parses successfully but whose status
field is absent or empty is included in the Record Store by refresh,
with its status defaulted to "pending", rather than skipped. -/
theorem loadArtworks_defaults_missing_status (s : RemoteStore)
    (old : List ArtworkRecord) (ks : List String) (k : String) (a : ArtworkJson)
    (ha : s.available = true) (hi : s.blobs indexKey = some (Blob.keysBlob ks))
    (hk : k ∈ ks) (hb : s.blobs (recordKey k) = some (Blob.artworkBlob a))
    (hs : a.status = none ∨ a.status = some "") :
    mkRecord k a ∈ loadArtworksUpdate s old ∧ (mkRecord k a).status = "pending" := by
  constructor
  · simp only [loadArtworksUpdate, ha, hi, if_true]
    rw [mem_sortByTimestampDesc, collectRecords_eq_filterMap]
    refine List.mem_filterMap.mpr ⟨k, hk, ?_⟩
    simp [hb, parseArtwork]
  · rcases hs with h | h <;> simp [mkRecord, h, defaultStatus]

/-- Witness for `loadArtworks_defaults_missing_status`. -/
theorem loadArtworks_defaults_missing_status_witness :
    mkRecord "b1" noStatusJson ∈ loadArtworksUpdate storeNoStatus [] ∧
    (mkRecord "b1" noStatusJson).status = "pending" :=
  loadArtworks_defaults_missing_status storeNoStatus [] ["b1"] "b1" noStatusJson
    rfl rfl (by decide) (by decide) (Or.inl rfl)

/-- A stored record at id "A": pending, owned by "0xAAA". -/
def pendingJsonA : ArtworkJson :=
  { data := some "FHE-z"
    timestamp := some 3
    owner := some "0xAAA"
    artworkName := some "Sunflowers"
    status := some "pending" }

/-- A store holding exactly the record "A". -/
def storePendingA : RemoteStore :=
  { available := true
    blobs := fun k =>
      if k = recordKey "A" then some (Blob.artworkBlob pendingJsonA) else none }

/-- C1 counterexample: the record at id "A" is owned by "0xAAA" while
the connected account is "0xBBB" (not the owner, case-insensitively),
yet markAsAuthentic succeeds and mutates the remote record, instead of
failing with an authorization error before any remote mutation. -/
theorem markAsAuthentic_ignores_owner :
    isOwner "0xBBB" "0xAAA" = false ∧
    (markAsAuthentic storePendingA "A").1 = TransitionOutcome.success ∧
    (markAsAuthentic storePendingA "A").2.blobs (recordKey "A")
      ≠ storePendingA.blobs (recordKey "A") := by decide

/-- C1 amended: the transition operations consult no identity at all:
for any remotely stored record that parses, markAsAuthentic and
markAsForgery succeed (mutating the remote record) whatever the
requesting identity; the owner check exists only in the UI, whose render
guard shows the two transition buttons exactly when the connected
account case-insensitively equals the record's owner and the cached
status is "pending". -/
theorem transition_authorization_ui_only (s : RemoteStore) (id : String)
    (a : ArtworkJson) (h : s.blobs (recordKey id) = some (Blob.artworkBlob a)) :
    (markAsAuthentic s id).1 = TransitionOutcome.success ∧
    (markAsForgery s id).1 = TransitionOutcome.success ∧
    ∀ account owner status,
      showTransitionActions account owner status = true ↔
        (toLowerAscii account = toLowerAscii owner ∧ status = "pending") := by
  refine ⟨?_, ?_, ?_⟩
  · simp [markAsAuthentic, markWith, h, parseArtwork]
  · simp [markAsForgery, markWith, h, parseArtwork]
  · intro account owner status
    simp [showTransitionActions, isOwner]

/-- Witness for `transition_authorization_ui_only`: on the store holding
record "A", markAsAuthentic reports success. -/
theorem transition_authorization_ui_only_witness :
    (markAsAuthentic storePendingA "A").1 = TransitionOutcome.success :=
  (transition_authorization_ui_only storePendingA "A" pendingJsonA (by decide)).1

/-- A stored record at id "B" whose state is already FORGERY. -/
def forgeryJsonB : ArtworkJson :=
  { data := some "FHE-w"
    timestamp := some 9
    owner := some "0xAAA"
    artworkName := some "Copy of Irises"
    status := some "forgery" }

/-- A store holding exactly the record "B", already marked a forgery. -/
def storeForgeryB : RemoteStore :=
  { available := true
    blobs := fun k =>
      if k = recordKey "B" then some (Blob.artworkBlob forgeryJsonB) else none }

/-- C2 counterexample: the record at "B" is stored with state FORGERY,
yet markAsAuthentic succeeds and overwrites its state to AUTHENTIC — a
FORGERY→AUTHENTIC transition, which the claim says no defined operation
permits. -/
theorem markAsAuthentic_overwrites_forgery :
    forgeryJsonB.status = some "forgery" ∧
    (markAsAuthentic storeForgeryB "B").1 = TransitionOutcome.success ∧
    (markAsAuthentic storeForgeryB "B").2.blobs (recordKey "B")
      = some (Blob.artworkBlob { forgeryJsonB with status := some "authentic" }) := by
  decide

/-- C2 amended: a record is created with state "pending", loadArtworks
never writes the remote store, and uploadArtwork touches no record key
other than the one it creates (and the index); but markAsAuthentic and
markAsForgery overwrite the stored state unconditionally with
"authentic" resp. "forgery", whatever the current state, so the one-way
PENDING→{AUTHENTIC, FORGERY} discipline holds only for runs that invoke
the transitions on pending records (as the UI guard arranges on cached
data), not against the stored state. -/
theorem state_overwrite_unconditional (s : RemoteStore) (id : String)
    (a : ArtworkJson) (h : s.blobs (recordKey id) = some (Blob.artworkBlob a)) :
    ((markAsAuthentic s id).2.blobs (recordKey id)
        = some (Blob.artworkBlob { a with status := some "authentic" }) ∧
     (markAsForgery s id).2.blobs (recordKey id)
        = some (Blob.artworkBlob { a with status := some "forgery" })) ∧
    (∀ inp : NewArtworkInput, (newRecordJson inp).status = some "pending") ∧
    (∀ (pol : SetPolicy) (inp : NewArtworkInput) (s2 : RemoteStore)
        (cache : List ArtworkRecord) (k : String),
        k ≠ recordKey inp.artworkId → k ≠ indexKey →
        (uploadArtwork pol inp s2 cache).remote.blobs k = s2.blobs k) := by
  refine ⟨⟨?_, ?_⟩, fun inp => rfl, ?_⟩
  · simp [markAsAuthentic, markWith, h, parseArtwork, setBlob]
  · simp [markAsForgery, markWith, h, parseArtwork, setBlob]
  · intro pol inp s2 cache k hk1 hk2
    unfold uploadArtwork
    cases h1 : pol (recordKey inp.artworkId) (Blob.artworkBlob (newRecordJson inp)) with
    | some m => simp [h1]
    | none =>
      simp only [h1]
      cases h2 : parseKeysForAppend ((setBlob s2 (recordKey inp.artworkId)
          (Blob.artworkBlob (newRecordJson inp))).blobs indexKey) with
      | none => simp [h2, setBlob, hk1]
      | some ks =>
        simp only [h2]
        cases h3 : pol indexKey (Blob.keysBlob (ks ++ [inp.artworkId])) with
        | some m => simp [h3, setBlob, hk1]
        | none => simp [h3, setBlob, hk1, hk2]

/-- Witness for `state_overwrite_unconditional`: the FORGERY record "B"
ends up stored as AUTHENTIC. -/
theorem state_overwrite_unconditional_witness :
    (markAsAuthentic storeForgeryB "B").2.blobs (recordKey "B")
      = some (Blob.artworkBlob { forgeryJsonB with status := some "authentic" }) :=
  (state_overwrite_unconditional storeForgeryB "B" forgeryJsonB (by decide)).1.1

/-- C7: for every record that exists remotely and parses, a transition
operation writes back under the same key the fetched record with only
the status field replaced by the new value; data (payload), timestamp
(createdAt), owner and artworkName (label) are preserved verbatim, and
no other key of the remote store is touched. -/
theorem transition_preserves_other_fields (s : RemoteStore) (id : String)
    (a : ArtworkJson) (h : s.blobs (recordKey id) = some (Blob.artworkBlob a)) :
    (markAsAuthentic s id).2.blobs (recordKey id)
        = some (Blob.artworkBlob { a with status := some "authentic" }) ∧
    (markAsForgery s id).2.blobs (recordKey id)
        = some (Blob.artworkBlob { a with status := some "forgery" }) ∧
    (∀ st, ({ a with status := some st } : ArtworkJson).data = a.data ∧
        ({ a with status := some st } : ArtworkJson).timestamp = a.timestamp ∧
        ({ a with status := some st } : ArtworkJson).owner = a.owner ∧
        ({ a with status := some st } : ArtworkJson).artworkName = a.artworkName) ∧
    (∀ k, k ≠ recordKey id →
        (markAsAuthentic s id).2.blobs k = s.blobs k ∧
        (markAsForgery s id).2.blobs k = s.blobs k) := by
  refine ⟨?_, ?_, fun st => ⟨rfl, rfl, rfl, rfl⟩, ?_⟩
  · simp [markAsAuthentic, markWith, h, parseArtwork, setBlob]
  · simp [markAsForgery, markWith, h, parseArtwork, setBlob]
  · intro k hk
    constructor <;>
      simp [markAsAuthentic, markAsForgery, markWith, h, parseArtwork, setBlob, hk]

/-- Witness for `transition_preserves_other_fields`: marking the pending
record "A" authentic stores it back with only the status replaced. -/
theorem transition_preserves_other_fields_witness :
    (markAsAuthentic storePendingA "A").2.blobs (recordKey "A")
      = some (Blob.artworkBlob { pendingJsonA with status := some "authentic" }) :=
  (transition_preserves_other_fields storePendingA "A" pendingJsonA (by decide)).1

end ForgeryNet
